import Mathlib

/-
Verification development for the logistics agentic system
(intent router, expense pipeline, load-finder pipeline, availability pipeline).

Modelling conventions:
* Python strings are modelled as Lean String / List Char; `str.lower()` is
  modelled by mapping Char.toLower (ASCII case folding, which agrees with
  Python on all ASCII text appearing in the keyword tables and test inputs).
* Python floats are modelled as exact rationals (ℚ); the numeric values the
  program manipulates (rupee amounts, weights, scores) are far from any
  binary-rounding boundary, so exact arithmetic is a faithful model.
  Python round(x, n) uses round-half-to-even, modelled by pyRoundInt below.
* re.search is modelled by hand-compiled matchers: a pattern is tried at
  every start position from the left (List.tails), and at a given position
  the greedy/lazy submatch behaviour of each concrete pattern is compiled
  out; comments at each matcher record the backtracking analysis.
* Sources of nondeterminism / effects (datetime.now, random, the Gemini LLM
  client, the Supabase client, raised exceptions) are passed as explicit
  parameters.
-/

namespace Logistics

/-! ### String utilities shared by all components -/

/-- Python `s.lower()` on the ASCII fragment, as a character list. -/
def lowerStr (s : String) : List Char := s.data.map Char.toLower

/-- Python's substring test `pat in s`. -/
def isSubstr (pat : List Char) (s : List Char) : Bool :=
  s.tails.any (fun t => pat.isPrefixOf t)

/-- Python `str.strip()`: drop whitespace from both ends. -/
def pyStrip (l : List Char) : List Char :=
  ((l.dropWhile Char.isWhitespace).reverse.dropWhile Char.isWhitespace).reverse

/-- Helper for pyTitle: tracks whether the previous character was alphabetic. -/
def pyTitleGo : Bool → List Char → List Char
  | _, [] => []
  | prevAlpha, c :: r =>
    (if c.isAlpha then (if prevAlpha then c.toLower else c.toUpper) else c) ::
      pyTitleGo c.isAlpha r

/-- Python `str.title()`: first letter of each alphabetic run upper-cased,
the rest lower-cased. -/
def pyTitle (l : List Char) : List Char := pyTitleGo false l

/-- Numeric value of a list of decimal digit characters. -/
def natOfDigits (ds : List Char) : Nat :=
  ds.foldl (fun acc c => 10 * acc + (c.toNat - 48)) 0

/-- Python `str.split()` (split on whitespace runs, no empty fields):
worker carrying the current word reversed. -/
def splitWSGo (cur : List Char) : List Char → List (List Char)
  | [] => if cur.isEmpty then [] else [cur.reverse]
  | c :: r =>
    if c.isWhitespace then
      (if cur.isEmpty then splitWSGo [] r else cur.reverse :: splitWSGo [] r)
    else splitWSGo (c :: cur) r

/-- Python `str.split()` with no argument. -/
def splitWS (l : List Char) : List (List Char) := splitWSGo [] l

/-- Python `str.split(sep)` worker for a non-empty separator. -/
def splitOnSubGo (s0 : Char) (srest : List Char) (cur : List Char) :
    List Char → List (List Char)
  | [] => [cur.reverse]
  | c :: r =>
    if (s0 :: srest).isPrefixOf (c :: r) then
      cur.reverse :: splitOnSubGo s0 srest [] (r.drop srest.length)
    else
      splitOnSubGo s0 srest (c :: cur) r
termination_by l => l.length
decreasing_by
  · simp only [List.length_drop, List.length_cons]; omega
  · simp only [List.length_cons]; omega

/-- Python `str.split(sep)` on character lists (leftmost, non-overlapping). -/
def splitOnSub (sep l : List Char) : List (List Char) :=
  match sep with
  | [] => [l]
  | s0 :: srest => splitOnSubGo s0 srest [] l

/-- Python `round` (round half to even) to an integer. -/
def pyRoundInt (q : ℚ) : ℤ :=
  let f := ⌊q⌋
  let r := q - f
  if r < 1/2 then f else if 1/2 < r then f + 1 else if Even f then f else f + 1

/-- Python `round(q, d)`. -/
def pyRoundTo (d : Nat) (q : ℚ) : ℚ :=
  (pyRoundInt (q * (10 : ℚ) ^ d) : ℚ) / (10 : ℚ) ^ d

end Logistics

namespace AgentRouter

open Logistics

/-! ### apps/agents/src/agent_router.py — classify_message_intent -/

/-- Availability keywords from classify_message_intent. -/
def availability_keywords : List (List Char) :=
  (["free", "available", "ready", "busy", "occupied", "offline", "rest",
    "break", "status", "working", "trip", "driving"] : List String).map String.data

/-- Load-search keywords from classify_message_intent. -/
def load_keywords : List (List Char) :=
  (["load", "loads", "shipment", "cargo", "delivery", "transport", "from",
    "to", "route", "destination", "pickup", "booking"] : List String).map String.data

/-- Expense keywords from classify_message_intent. -/
def expense_keywords : List (List Char) :=
  (["expense", "cost", "fuel", "diesel", "toll", "parking", "maintenance",
    "repair", "bill", "receipt", "paid"] : List String).map String.data

/-- Context-heuristic keywords of the default fallback branch. -/
def context_keywords : List (List Char) :=
  (["find", "search", "looking", "need"] : List String).map String.data

/-- Number of keywords of the list occurring as substrings of the message
(each keyword counted once). -/
def scoreOf (kws : List (List Char)) (m : List Char) : Nat :=
  kws.countP (fun k => isSubstr k m)

/-- availability_score of classify_message_intent. -/
def availability_score (m : List Char) : Nat := scoreOf availability_keywords m

/-- load_score of classify_message_intent. -/
def load_score (m : List Char) : Nat := scoreOf load_keywords m

/-- expense_score of classify_message_intent. -/
def expense_score (m : List Char) : Nat := scoreOf expense_keywords m

/-- classify_message_intent from agent_router.py: keyword counting with
strict-majority checks for load_search and expense_tracking, then
availability on any positive score, then the context heuristic. -/
def classify_message_intent (message : String) : String :=
  let ml := lowerStr message
  let a := availability_score ml
  let l := load_score ml
  let e := expense_score ml
  if l > a ∧ l > e then "load_search"
  else if e > a ∧ e > l then "expense_tracking"
  else if a > 0 then "availability"
  else if context_keywords.any (fun k => isSubstr k ml) then "load_search"
  else "general"

/-- Classifier as the CLAIM (C1) words it: the strictly-highest-scoring
category wins; any tie for the top (or all-zero scores) falls through to the
context heuristic. Written from the claim text, for comparison with the
source function classify_message_intent. -/
def claimClassify (message : String) : String :=
  let ml := lowerStr message
  let a := availability_score ml
  let l := load_score ml
  let e := expense_score ml
  if a > l ∧ a > e then "availability"
  else if l > a ∧ l > e then "load_search"
  else if e > a ∧ e > l then "expense_tracking"
  else if context_keywords.any (fun k => isSubstr k ml) then "load_search"
  else "general"

end AgentRouter

namespace ExpenseTracker

open Logistics

/-! ### apps/agents/src/expense_tracker_agent.py — amount extraction

The amount regexes share the number sub-pattern
`\d+(?:,\d{3})*(?:\.\d{2})?`.  In every amount pattern the capture is either
the final element of the regex or is followed only by `\s*rupees?`; in both
cases greedy matching of the number never needs to give characters back (a
shorter comma-group/decimal attempt leaves the tail starting with `,` or
`.`, on which `\s*rupees?` also fails), so the deterministic greedy parse
below is exact. -/

/-- Greedy `(?:,\d{3})*`: returns the digits collected and the rest. -/
def commaGroups : List Char → List Char × List Char
  | ',' :: a :: b :: c :: r =>
    if a.isDigit && b.isDigit && c.isDigit then
      let (g, r2) := commaGroups r
      (a :: b :: c :: g, r2)
    else ([], ',' :: a :: b :: c :: r)
  | r => ([], r)

/-- Optional `(?:\.\d{2})?`: the two-digit fractional value and the rest. -/
def decTwo : List Char → Option (Nat × List Char)
  | '.' :: a :: b :: r =>
    if a.isDigit && b.isDigit then some (10 * (a.toNat - 48) + (b.toNat - 48), r)
    else none
  | _ => none

/-- `\d+(?:,\d{3})*(?:\.\d{2})?` anchored at the start of the suffix, with the
captured text already comma-stripped and parsed by float(). -/
def numTokAt (s : List Char) : Option (ℚ × List Char) :=
  let d1 := s.takeWhile Char.isDigit
  let r1 := s.dropWhile Char.isDigit
  if d1.isEmpty then none
  else
    let (g, r2) := commaGroups r1
    match decTwo r2 with
    | some (f, r3) => some ((natOfDigits (d1 ++ g) : ℚ) + (f : ℚ) / 100, r3)
    | none => some ((natOfDigits (d1 ++ g) : ℚ), r2)

/-- Literal prefix match returning the rest of the suffix. -/
def litAt (lit : List Char) (s : List Char) : Option (List Char) :=
  if lit.isPrefixOf s then some (s.drop lit.length) else none

/-- Greedy `\s*`. -/
def dropSpacesL (s : List Char) : List Char := s.dropWhile Char.isWhitespace

/-- `\s+` followed by greedy `\s*` absorption (the next element of every
pattern using `\s+` is a digit, so absorbing all whitespace is exact). -/
def oneSpaceThen : List Char → Option (List Char)
  | [] => none
  | c :: r => if c.isWhitespace then some (dropSpacesL r) else none

/-- The corrupted rupee sign as it appears (mojibake) in the source file:
the bytes of U+20B9 re-decoded, giving U+00E2 U+201A U+00B9. -/
def mojibakeRupee : List Char := ['â', '‚', '¹']

/-- Number value at the start of the suffix. -/
def amtAfter (s : List Char) : Option ℚ := (numTokAt s).map (fun p => p.1)

/-- Pattern 1: the (mojibake) rupee sign, `\s*`, number. -/
def patRupee (s : List Char) : Option ℚ :=
  (litAt mojibakeRupee s).bind (fun r => amtAfter (dropSpacesL r))

/-- Pattern 2: number, `\s*`, `rupees?`. -/
def patRupees (s : List Char) : Option ℚ :=
  match numTokAt s with
  | some (v, r) =>
    if ("rupee").data.isPrefixOf (dropSpacesL r) then some v else none
  | none => none

/-- Pattern 3: `rs\.?\s*`, number. -/
def patRs (s : List Char) : Option ℚ :=
  (litAt ("rs").data s).bind (fun r =>
    let r1 := match r with | '.' :: r2 => r2 | _ => r
    amtAfter (dropSpacesL r1))

/-- Pattern 4: `amount\s*:?\s*`, number. -/
def patAmountLbl (s : List Char) : Option ℚ :=
  (litAt ("amount").data s).bind (fun r =>
    let r1 := dropSpacesL r
    let r2 := match r1 with | ':' :: r3 => r3 | _ => r1
    amtAfter (dropSpacesL r2))

/-- Pattern 5: `paid\s*`, number. -/
def patPaid (s : List Char) : Option ℚ :=
  (litAt ("paid").data s).bind (fun r => amtAfter (dropSpacesL r))

/-- Pattern 6: `cost\s*`, number. -/
def patCost (s : List Char) : Option ℚ :=
  (litAt ("cost").data s).bind (fun r => amtAfter (dropSpacesL r))

/-- Pattern 7: `expense\s+`, number. -/
def patExpense (s : List Char) : Option ℚ :=
  (litAt ("expense").data s).bind (fun r => (oneSpaceThen r).bind amtAfter)

/-- Pattern 8: `fee\s+`, number. -/
def patFee (s : List Char) : Option ℚ :=
  (litAt ("fee").data s).bind (fun r => (oneSpaceThen r).bind amtAfter)

/-- Pattern 9: `(?:fuel|diesel|petrol)\s+`, number (the alternatives start
with distinct letters, so ordered trial is exact). -/
def patFuelNum (s : List Char) : Option ℚ :=
  ((litAt ("fuel").data s).orElse (fun _ =>
    (litAt ("diesel").data s).orElse (fun _ =>
      litAt ("petrol").data s))).bind (fun r => (oneSpaceThen r).bind amtAfter)

/-- re.search: try the anchored matcher at each start position, leftmost
first. -/
def searchPat (p : List Char → Option ℚ) (s : List Char) : Option ℚ :=
  s.tails.findSome? p

/-- `\d{3,6}` at a boundary, then whitespace or end.  A longer digit run
leaves a digit after any 3..6-digit prefix, so the run must itself have
length 3..6 and be followed by whitespace or the end. -/
def standaloneAt (t : List Char) : Option ℚ :=
  let d := t.takeWhile Char.isDigit
  let r := t.dropWhile Char.isDigit
  let boundary : Bool := match r with | [] => true | c :: _ => c.isWhitespace
  if 3 ≤ d.length ∧ d.length ≤ 6 ∧ boundary = true then
    some (natOfDigits d)
  else none

/-- Pattern 10: `(?:^|\s)(\d{3,6})(?:\s|$)`: the `^` alternative at position
0, then the `\s` alternative at each whitespace character, leftmost first. -/
def patStandalone (s : List Char) : Option ℚ :=
  (standaloneAt s).orElse (fun _ =>
    s.tails.findSome? (fun t =>
      match t with
      | c :: r => if c.isWhitespace then standaloneAt r else none
      | [] => none))

/-- The ordered amount_patterns list of parse_expense_message. -/
def amount_patterns : List (List Char → Option ℚ) :=
  [searchPat patRupee, searchPat patRupees, searchPat patRs,
   searchPat patAmountLbl, searchPat patPaid, searchPat patCost,
   searchPat patExpense, searchPat patFee, searchPat patFuelNum,
   patStandalone]

/-- The amount-extraction loop of parse_expense_message: first pattern that
matches wins; the 0.0 sentinel when none does.  (float() cannot fail on the
captured shapes, so the ValueError branch of the source is dead.) -/
def extract_amount (m : List Char) : ℚ :=
  (amount_patterns.findSome? (fun p => p m)).getD 0

/-! ### Expense categories and categorisation -/

/-- The six keys of the EXPENSE_CATEGORIES dict (the TypedDict comment fixes
this closed set: fuel, toll, parking, maintenance, food, other). -/
inductive ExpenseCategory
  | fuel | toll | parking | maintenance | food | other
deriving DecidableEq

/-- The lower-case name of a category (the Python dict key). -/
def ExpenseCategory.name : ExpenseCategory → String
  | .fuel => "fuel" | .toll => "toll" | .parking => "parking"
  | .maintenance => "maintenance" | .food => "food" | .other => "other"

/-- The keyword list of a category in EXPENSE_CATEGORIES. -/
def categoryKeywords : ExpenseCategory → List (List Char)
  | .fuel => (["fuel", "diesel", "petrol", "gas", "pump"] : List String).map String.data
  | .toll => (["toll", "highway", "expressway", "plaza"] : List String).map String.data
  | .parking => (["parking", "stand", "halt"] : List String).map String.data
  | .maintenance => (["repair", "service", "maintenance", "spare", "tyre"] : List String).map String.data
  | .food => (["food", "meal", "dhaba", "restaurant", "tea", "snacks"] : List String).map String.data
  | .other => []

/-- The max_amount of a category in EXPENSE_CATEGORIES. -/
def max_amount : ExpenseCategory → ℚ
  | .fuel => 50000 | .toll => 5000 | .parking => 1000
  | .maintenance => 25000 | .food => 2000 | .other => 10000

/-- Dict insertion order of EXPENSE_CATEGORIES. -/
def categoryOrder : List ExpenseCategory :=
  [.fuel, .toll, .parking, .maintenance, .food, .other]

/-- The categorisation loop of parse_expense_message: iterate the categories
in dict order, keeping the first one with a strictly larger keyword-match
count than any seen so far; "other" when all counts are zero. -/
def detectCategory (m : List Char) : ExpenseCategory :=
  (categoryOrder.foldl
    (fun (acc : ExpenseCategory × Nat) c =>
      let k := (categoryKeywords c).countP (fun kw => isSubstr kw m)
      if k > acc.2 then (c, k) else acc)
    (.other, 0)).1

/-! ### Location extraction

Patterns `at\s+([a-zA-Z\s]+?)(?:\s|$|,)` and the `in`/`from`/`near`
variants.  The lazy capture grows one class character at a time, stopping as
soon as the rest starts with whitespace, a comma, or the end.  When that
fails, Python backtracks the greedy `\s+`, which can make the capture start
on a space; the resulting single-space captures (stripping to "") are
reproduced by the cascade in matchLocAt. -/

/-- The character class `[a-zA-Z\s]`. -/
def isLocClass (c : Char) : Bool := c.isAlpha || c.isWhitespace

/-- Lazy `([a-zA-Z\s]+?)` with terminator `(?:\s|$|,)`, anchored. -/
def lazyCapLocGo (acc : List Char) : List Char → Option (List Char)
  | [] => some acc
  | c :: r =>
    if c.isWhitespace || c = ',' then some acc
    else if isLocClass c then lazyCapLocGo (acc ++ [c]) r
    else none

/-- First capture character (at least one, before any terminator check). -/
def lazyCapLoc : List Char → Option (List Char)
  | [] => none
  | c :: r => if isLocClass c then lazyCapLocGo [c] r else none

/-- One location pattern anchored at a start position: the keyword, `\s+`,
then the lazy capture; the else-branches replay the `\s+` backtracks, whose
only possible captures are a single space (see module comment). -/
def matchLocAt (kw : List Char) (t : List Char) : Option (List Char) :=
  (litAt kw t).bind (fun r =>
    let sp := r.takeWhile Char.isWhitespace
    let rest := r.dropWhile Char.isWhitespace
    if sp.isEmpty then none
    else
      match lazyCapLoc rest with
      | some cap => some cap
      | none =>
        match rest with
        | [] => if 2 ≤ sp.length then some [' '] else none
        | c :: _ =>
          if c = ',' then (if 2 ≤ sp.length then some [' '] else none)
          else if 3 ≤ sp.length then some [' ']
          else none)

/-- The location_patterns loop: each pattern searched over the whole
message, first pattern with a match wins; strip().title() applied. -/
def extract_location (m : List Char) : List Char :=
  let pats := (["at", "in", "from", "near"] : List String).map String.data
  match pats.findSome? (fun kw => m.tails.findSome? (fun t => matchLocAt kw t)) with
  | some cap => pyTitle (pyStrip cap)
  | none => []

/-! ### Receipt extraction

Patterns like `receipt\s*(?:no|number|#)?\s*:?\s*([A-Z0-9]+)` with
re.IGNORECASE on the already lower-cased message.  Python tries the
alternation branches of the optional token in order (then the empty
alternative), each with the full continuation; `\s*:?\s*` needs no give-back
since the capture class excludes whitespace and colon. -/

/-- `\s*:?\s*`. -/
def afterColonSpaces (s : List Char) : List Char :=
  let r := dropSpacesL s
  match r with
  | ':' :: r2 => dropSpacesL r2
  | _ => r

/-- `([A-Z0-9]+)` under IGNORECASE on lower-cased text: a nonempty
alphanumeric run. -/
def alnumRun (s : List Char) : Option (List Char) :=
  let a := s.takeWhile Char.isAlphanum
  if a.isEmpty then none else some a

/-- One receipt pattern anchored at a start position. -/
def matchReceiptAt (kw : List Char) (toks : List (List Char)) (t : List Char) :
    Option (List Char) :=
  (litAt kw t).bind (fun r =>
    let s0 := dropSpacesL r
    let branches := (toks.filterMap (fun tok => litAt tok s0)) ++ [s0]
    branches.findSome? (fun r2 => alnumRun (afterColonSpaces r2)))

/-- The receipt_patterns list (keyword, optional-token alternatives). -/
def receipt_patterns : List (List Char × List (List Char)) :=
  [(("receipt").data, (["no", "number", "#"] : List String).map String.data),
   (("bill").data, (["no", "number", "#"] : List String).map String.data),
   (("transaction").data, (["id", "#"] : List String).map String.data)]

/-- The receipt-extraction loop: first pattern with a match anywhere wins. -/
def extract_receipt (m : List Char) : List Char :=
  (receipt_patterns.findSome? (fun pr =>
    m.tails.findSome? (fun t => matchReceiptAt pr.1 pr.2 t))).getD []

/-! ### Vendor extraction

Patterns 1–2: `from\s+([A-Za-z\s&]+?)(?:\s+(?:pump|station|plaza|dhaba)|$)`
(and `at\s+…`); pattern 3: `vendor\s*:?\s*([A-Za-z\s&]+?)(?:\s|$|,)`.
The lazy captures and the `\s+`/`\s*` give-back cascades are compiled out as
for locations; for patterns 1–2 a give-back succeeds exactly when the
remainder is empty (2+ spaces) or starts with a stop keyword (3+ spaces),
with capture " " stripping to "". -/

/-- The character class `[A-Za-z\s&]`. -/
def isVendClass (c : Char) : Bool := c.isAlpha || c.isWhitespace || c = '&'

/-- The stop keywords of vendor patterns 1–2. -/
def vendorStopKws : List (List Char) :=
  (["pump", "station", "plaza", "dhaba"] : List String).map String.data

/-- Terminator `(?:\s+(?:pump|station|plaza|dhaba)|$)`. -/
def vendTermOk (r : List Char) : Bool :=
  match r with
  | [] => true
  | _ =>
    let sp := r.takeWhile Char.isWhitespace
    let r2 := r.dropWhile Char.isWhitespace
    !sp.isEmpty && vendorStopKws.any (fun k => k.isPrefixOf r2)

/-- Lazy `([A-Za-z\s&]+?)` with the stop-keyword terminator. -/
def lazyCapVendGo (acc : List Char) : List Char → Option (List Char)
  | [] => some acc
  | c :: r =>
    if vendTermOk (c :: r) then some acc
    else if isVendClass c then lazyCapVendGo (acc ++ [c]) r
    else none

/-- First capture character of the vendor class. -/
def lazyCapVend : List Char → Option (List Char)
  | [] => none
  | c :: r => if isVendClass c then lazyCapVendGo [c] r else none

/-- Vendor patterns 1–2 anchored at a start position. -/
def matchVendAt (kw : List Char) (t : List Char) : Option (List Char) :=
  (litAt kw t).bind (fun r =>
    let sp := r.takeWhile Char.isWhitespace
    let rest := r.dropWhile Char.isWhitespace
    if sp.isEmpty then none
    else
      match lazyCapVend rest with
      | some cap => some cap
      | none =>
        if rest.isEmpty then (if 2 ≤ sp.length then some [' '] else none)
        else if 3 ≤ sp.length && vendorStopKws.any (fun k => k.isPrefixOf rest) then
          some [' ']
        else none)

/-- Lazy capture of vendor pattern 3 (class with `&`, terminator
`(?:\s|$|,)`). -/
def lazyCapVend3Go (acc : List Char) : List Char → Option (List Char)
  | [] => some acc
  | c :: r =>
    if c.isWhitespace || c = ',' then some acc
    else if isVendClass c then lazyCapVend3Go (acc ++ [c]) r
    else none

/-- Vendor pattern 3 anchored at a start position.  The spaces eligible for
give-back are those matched by the `\s*` directly before the capture (after
the colon when one is present); with `\s*` the thresholds are one lower than
for `\s+`. -/
def matchVend3At (t : List Char) : Option (List Char) :=
  (litAt ("vendor").data t).bind (fun r =>
    let spA := r.takeWhile Char.isWhitespace
    let rA := r.dropWhile Char.isWhitespace
    let (pool, rest) :=
      match rA with
      | ':' :: x => (x.takeWhile Char.isWhitespace, x.dropWhile Char.isWhitespace)
      | _ => (spA, rA)
    match (match rest with
           | [] => none
           | c :: rr => if isVendClass c then lazyCapVend3Go [c] rr else none) with
    | some cap => some cap
    | none =>
      match rest with
      | [] => if 1 ≤ pool.length then some [' '] else none
      | c :: _ =>
        if c = ',' then (if 1 ≤ pool.length then some [' '] else none)
        else if 2 ≤ pool.length then some [' ']
        else none)

/-- The vendor-extraction loop: each match overwrites vendor_name with the
stripped, title-cased capture, and the loop stops once its length exceeds 3
(shorter matches are kept if no later pattern matches). -/
def vendorLoop (acc : List Char) : List (Option (List Char)) → List Char
  | [] => acc
  | none :: rest => vendorLoop acc rest
  | some cap :: rest =>
    let t := pyTitle (pyStrip cap)
    if 3 < t.length then t else vendorLoop t rest

/-- The vendor_patterns loop of parse_expense_message. -/
def extract_vendor (m : List Char) : List Char :=
  vendorLoop []
    [m.tails.findSome? (fun t => matchVendAt ("from").data t),
     m.tails.findSome? (fun t => matchVendAt ("at").data t),
     m.tails.findSome? matchVend3At]

/-! ### Number formatting used by the response builders -/

/-- Insert a comma after every third digit of a reversed digit list. -/
def groupRev : List Char → List Char
  | a :: b :: c :: d :: r => a :: b :: c :: ',' :: groupRev (d :: r)
  | l => l

/-- Python `"{:,}".format` digit grouping of an integer's digits. -/
def groupDigits (ds : List Char) : List Char := (groupRev ds.reverse).reverse

/-- Python `"{:,.2f}".format(q)`: round-half-even to two decimals, comma
digit grouping of the integer part. -/
def formatAmount2 (q : ℚ) : String :=
  let n := pyRoundInt (q * 100)
  let sign := if n < 0 then "-" else ""
  let a := n.natAbs
  let ip := a / 100
  let fp := a % 100
  sign ++ String.mk (groupDigits (Nat.repr ip).data) ++ "." ++
    (if fp < 10 then "0" ++ Nat.repr fp else Nat.repr fp)

/-- Python `str()` of a float holding an exact small decimal (the values
produced by round(x, 1) / round(x, 2) in this program): shortest decimal
with at least one fractional digit. -/
def pyFloatRepr (q : ℚ) : String :=
  let sign := if q < 0 then "-" else ""
  let a := |q|
  let k := (((List.range 7).find? (fun k => (a * (10 : ℚ) ^ k).den = 1)).getD 6)
  let n := (a * (10 : ℚ) ^ k).num.toNat
  if k = 0 then sign ++ Nat.repr n ++ ".0"
  else
    let ip := n / 10 ^ k
    let fpDigits := (List.range k).map (fun i => n / 10 ^ (k - 1 - i) % 10)
    let trimmed := (fpDigits.reverse.dropWhile (fun d => d = 0)).reverse
    let frac := if trimmed.isEmpty then [0] else trimmed
    sign ++ Nat.repr ip ++ "." ++ String.join (frac.map Nat.repr)

/-! ### The ExpenseState record and the four workflow nodes -/

/-- The ExpenseState TypedDict.  The nested extracted_data dict is flattened
into its three fields validation_errors / warnings / confidence_score. -/
structure ExpenseState where
  message : String
  driver_id : String
  expense_type : ExpenseCategory
  amount : ℚ
  location : String
  receipt_number : String
  vendor_name : String
  timestamp : String
  trip_id : Option String
  validation_errors : List String
  warnings : List String
  confidence_score : ℚ
  response_message : String
  validation_status : String
deriving DecidableEq

/-- parse_expense_message.  `rng` models the value drawn by
random.randint(10000, 99999) for a synthesised receipt id and `now` the
datetime.now() timestamp string. -/
def parse_expense_message (rng : Nat) (now : String) (s : ExpenseState) :
    ExpenseState :=
  let m := lowerStr s.message
  let amount := extract_amount m
  let receipt0 := extract_receipt m
  let receipt :=
    if receipt0.isEmpty ∧ 0 < amount then ("EXP").data ++ (Nat.repr rng).data
    else receipt0
  { s with
    amount := amount
    expense_type := detectCategory m
    location := String.mk (extract_location m)
    receipt_number := String.mk receipt
    vendor_name := String.mk (extract_vendor m)
    timestamp := now }

/-- The "amount seems high" warning string (with the source's mojibake rupee
sign). -/
def warnHighMsg (s : ExpenseState) : String :=
  "Amount seems high for " ++ s.expense_type.name ++ " (â‚¹" ++
    formatAmount2 s.amount ++ ")"

/-- calculate_confidence_score: weighted sum of field presence, scaled to
[0,100] and rounded to one decimal. -/
def calculate_confidence_score (s : ExpenseState) : ℚ :=
  pyRoundTo 1 (100 *
    ((if 0 < s.amount then (2 : ℚ) / 5 else 0) +
     (if s.expense_type ≠ .other then (1 : ℚ) / 5 else 0) +
     (if s.receipt_number ≠ "" then (3 : ℚ) / 20 else 0) +
     (if s.location ≠ "" then (3 : ℚ) / 20 else 0) +
     (if s.vendor_name ≠ "" then (1 : ℚ) / 10 else 0)))

/-- validate_expense_data: one possible error (non-positive amount), four
possible warnings, status failed / warning / passed; stores the lists and
the confidence score (computed on the same state). -/
def validate_expense_data (s : ExpenseState) : ExpenseState :=
  let validation_errors :=
    if s.amount ≤ 0 then ["Amount not found or invalid"] else []
  let warnings :=
    (if ¬ s.amount ≤ 0 ∧ max_amount s.expense_type < s.amount
     then [warnHighMsg s] else []) ++
    (if s.expense_type = .fuel ∧ s.amount < 100
     then ["Fuel amount seems unusually low"] else []) ++
    (if s.expense_type = .toll ∧ 2000 < s.amount
     then ["Toll amount seems high - please verify"] else []) ++
    (if s.location = "" ∧
        (s.expense_type = .fuel ∨ s.expense_type = .toll ∨ s.expense_type = .parking)
     then ["Location not specified - this may be required for reimbursement"]
     else [])
  { s with
    validation_status :=
      if validation_errors ≠ [] then "failed"
      else if warnings ≠ [] then "warning"
      else "passed"
    validation_errors := validation_errors
    warnings := warnings
    confidence_score := calculate_confidence_score s }

/-- The expense_record dict built (and logged as saved) by
save_expense_record. -/
structure ExpenseRecord where
  expense_id : String
  driver_id : String
  rec_type : ExpenseCategory
  amount : ℚ
  location : String
  vendor : String
  receipt_number : String
  timestamp : String
  trip_id : Option String
  validation_status : String
  confidence_score : ℚ
deriving DecidableEq

/-- save_expense_record: the mock database save.  It builds the
expense_record and logs it as saved unconditionally (no check of
validation_status), performs no actual storage anywhere, and returns the
state unchanged.  `nowId` models the strftime expense-id suffix. -/
def save_expense_record (nowId : String) (s : ExpenseState) :
    ExpenseState × ExpenseRecord :=
  (s,
   { expense_id := "EXP_" ++ nowId
     driver_id := s.driver_id
     rec_type := s.expense_type
     amount := s.amount
     location := s.location
     vendor := s.vendor_name
     receipt_number := s.receipt_number
     timestamp := s.timestamp
     trip_id := s.trip_id
     validation_status := s.validation_status
     confidence_score := s.confidence_score })

/-- The failed-path response text of generate_expense_response. -/
def expenseFailedMsg (errors : List String) : String :=
  "âŒ **Expense Recording Failed**\n\nIssues found: " ++
    String.intercalate ", " errors ++
    "\n\nPlease provide more details or try again with format:\n\x27Fuel expense â‚¹1500 at Delhi HP Pump\x27"

/-- The emoji_map of generate_expense_response (with the source file's
mojibake emoji); .get default equals the "other" entry. -/
def emojiOf : ExpenseCategory → String
  | .fuel => "â›½"
  | .toll => "ðŸ›£ï¸"
  | .parking => "ðŸ…¿ï¸"
  | .maintenance => "ðŸ”§"
  | .food => "ðŸ½ï¸"
  | .other => "ðŸ“"

/-- Python `.title()` of a category name. -/
def ExpenseCategory.titleName (c : ExpenseCategory) : String :=
  String.mk (pyTitle c.name.data)

/-- The success-path response text of generate_expense_response (the
non-ASCII emoji are the source file's mojibake sequences, written as
codepoint escapes). -/
def expenseOkMsg (s : ExpenseState) : String :=
  "âœ… **Expense Recorded Successfully!**\n\n" ++
  emojiOf s.expense_type ++ " **Type:** " ++ s.expense_type.titleName ++ "\n" ++
  "ðŸ’° **Amount:** â‚¹" ++
    formatAmount2 s.amount ++ "\n" ++
  (if s.location ≠ "" then
    "ðŸ“ **Location:** " ++ s.location ++ "\n" else "") ++
  (if s.vendor_name ≠ "" then
    "ðŸª **Vendor:** " ++ s.vendor_name ++ "\n" else "") ++
  "ðŸ§¾ **Receipt #:** " ++ s.receipt_number ++ "\n" ++
  "â° **Time:** " ++ s.timestamp ++ "\n" ++
  "ðŸ“Š **Confidence:** " ++
    pyFloatRepr s.confidence_score ++ "%\n" ++
  (if s.validation_status = "warning" then
    "\nâš ï¸ **Notices:**\n" ++
      String.join (s.warnings.map (fun w => "â€¢ " ++ w ++ "\n"))
   else "") ++
  "\nðŸ’¡ **Next Steps:**\n" ++
  "â€¢ Expense added to your trip record\n" ++
  "â€¢ Receipt will be processed for reimbursement\n" ++
  "â€¢ Check monthly summary with \x27expense report\x27"

/-- generate_expense_response: the failed branch joins the validation
errors; otherwise the success text (with notices when status is
"warning"). -/
def generate_expense_response (s : ExpenseState) : ExpenseState :=
  if s.validation_status = "failed" then
    { s with response_message := expenseFailedMsg s.validation_errors }
  else
    { s with response_message := expenseOkMsg s }

/-- create_expense_tracker_workflow: the strictly linear LangGraph
START → parse → validate → save → respond → END, with the record built by
the save node exposed alongside the final state. -/
def run_expense_workflow (rng : Nat) (now nowId : String) (s0 : ExpenseState) :
    ExpenseState × ExpenseRecord :=
  (generate_expense_response
     (save_expense_record nowId
       (validate_expense_data (parse_expense_message rng now s0))).1,
   (save_expense_record nowId
     (validate_expense_data (parse_expense_message rng now s0))).2)

/-- The initial state built by process_expense_message. -/
def initialExpenseState (message driver_id : String) : ExpenseState :=
  { message := message
    driver_id := driver_id
    expense_type := .other
    amount := 0
    location := ""
    receipt_number := ""
    vendor_name := ""
    timestamp := ""
    trip_id := none
    validation_errors := []
    warnings := []
    confidence_score := 0
    response_message := ""
    validation_status := "pending" }

/-- The dict returned by process_expense_message. -/
structure ExpenseEnvelope where
  envelope_type : String
  status : String
  expense_type : ExpenseCategory
  amount : ℚ
  location : String
  receipt_number : String
  validation_status : String
  confidence_score : ℚ
  response : String
  timestamp : String
deriving DecidableEq

/-- process_expense_message: build the initial state, run the workflow,
package the result (status "failed" exactly when validation failed). -/
def process_expense_message (message driver_id : String) (rng : Nat)
    (now nowId : String) : ExpenseEnvelope × ExpenseRecord :=
  let (f, rec) := run_expense_workflow rng now nowId
    (initialExpenseState message driver_id)
  ({ envelope_type := "expense_tracking"
     status := if f.validation_status ≠ "failed" then "success" else "failed"
     expense_type := f.expense_type
     amount := f.amount
     location := f.location
     receipt_number := f.receipt_number
     validation_status := f.validation_status
     confidence_score := f.confidence_score
     response := f.response_message
     timestamp := f.timestamp }, rec)

end ExpenseTracker

namespace AgentRouter

open Logistics

/-! ### apps/agents/src/agent_router.py — route_message_to_agent

The returned dicts are modelled as association lists of (key, value)
pairs in source order.  datetime.now() strftime values are the
parameters now (router timestamp format) and nowShort (the expense
branch's %d/%m/%Y %H:%M format).  The only handler actually dispatched
is the availability agent (the import and the call may fail); its
outcome is a parameter. -/

/-- The availability import-fallback response string. -/
def availImportFallbackMsg : String :=
  "समझ गया! आप available हैं। आपका status update हो गया है।"

/-- The load-search placeholder response string. -/
def loadSearchMsg : String :=
  "🚛 मिल गए 3 loads आपके लिए!\n\n📦 Delhi → Mumbai: ₹45,000 (15 tons)\n📦 Chennai → Bangalore: ₹32,000 (12 tons)\n📦 Pune → Hyderabad: ₹28,000 (10 tons)\n\nकौन सा लेना चाहते हैं? Reply करें load number के साथ।"

/-- The expense-branch response f-string; nowShort models the
strftime(%d/%m/%Y %H:%M) timestamp. -/
def expenseRecordedMsg (expense_type : String) (amount : Int)
    (driver_id nowShort : String) : String :=
  "💰 Expense recorded!\n\n🧾 Type: " ++ String.mk (Logistics.pyTitle expense_type.data) ++
  "\n💵 Amount: ₹" ++ Int.repr amount ++
  "\n👤 Driver: " ++ driver_id ++
  "\n⏰ Time: " ++ nowShort ++
  "\n\nReceipt saved successfully!"

/-- The general-branch response f-string. -/
def generalMsg (message : String) : String :=
  "नमस्ते! 🙏\n\nआप कह रहे हैं: \x27" ++ message ++
  "\x27\n\nमैं आपकी मदद कर सकता हूं:\n\n✅ Driver status (कहें \x27मैं free हूं\x27 या \x27busy हूं\x27)\n📦 Load search (कहें \x27Delhi से Mumbai loads\x27)\n💰 Expense tracking (कहें \x27fuel expense 2500\x27)\n\nक्या चाहिए आज?"

/-- The error-branch apology response string. -/
def apologyMsg : String :=
  "माफ करें, system में कुछ issue है। कृपया दोबारा try करें या support से contact करें।"

/-- A Python value stored in a response envelope. -/
inductive PyVal
  | vs : String → PyVal
  | vi : Int → PyVal
deriving DecidableEq

/-- Outcome of `from availability_agent import process_driver_message`
followed by the call: a successful result dict (the three fields the router
reads, via .get with defaults), an ImportError, or any other raised
exception with its str(e) description. -/
inductive AvailOutcome
  | ok (driver_status location response_sent : String)
  | importError
  | raised (desc : String)

/-- The expense branch's `re.search(r'(\d+)', message)` + int(): value of
the leftmost maximal digit run, 0 when the message has no digit. -/
def firstNumber (message : String) : Int :=
  (message.data.tails.findSome? (fun t =>
    let d := t.takeWhile Char.isDigit
    if d.isEmpty then none else some (natOfDigits d : Int))).getD 0

/-- The expense branch's inline conditional for expense_type. -/
def routerExpenseType (message : String) : String :=
  if isSubstr ("fuel").data (lowerStr message) then "fuel"
  else if isSubstr ("toll").data (lowerStr message) then "toll"
  else "general"

/-- The except-branch error envelope (dict key order preserved). -/
def errorEnvelope (e intent driver_id now : String) : List (String × PyVal) :=
  [("type", .vs "error"), ("status", .vs "failed"), ("error", .vs e),
   ("response", .vs apologyMsg), ("routed_to", .vs intent),
   ("driver_id", .vs driver_id), ("timestamp", .vs now)]

/-- route_message_to_agent: classify, dispatch on the intent string, return
the branch's envelope; any exception raised inside the try block yields the
error envelope tagged with the already-computed intent.  (The source binds
intent = classify_message_intent(message) once; the pure call is inlined
here.) -/
def route_message_to_agent (message driver_id now nowShort : String)
    (avail : AvailOutcome) : List (String × PyVal) :=
  if classify_message_intent message = "availability" then
    match avail with
    | .ok ds loc resp =>
      [("type", .vs "availability"), ("status", .vs "success"),
       ("driver_status", .vs ds), ("location", .vs loc),
       ("response", .vs resp),
       ("routed_to", .vs (classify_message_intent message)),
       ("driver_id", .vs driver_id), ("timestamp", .vs now)]
    | .importError =>
      [("type", .vs "availability"), ("status", .vs "success"),
       ("response", .vs availImportFallbackMsg),
       ("routed_to", .vs (classify_message_intent message)),
       ("driver_id", .vs driver_id), ("timestamp", .vs now)]
    | .raised e => errorEnvelope e (classify_message_intent message) driver_id now
  else if classify_message_intent message = "load_search" then
    [("type", .vs "load_search"), ("status", .vs "success"),
     ("loads_found", .vi 3), ("response", .vs loadSearchMsg),
     ("routed_to", .vs (classify_message_intent message)),
     ("driver_id", .vs driver_id), ("timestamp", .vs now)]
  else if classify_message_intent message = "expense_tracking" then
    [("type", .vs "expense_tracking"), ("status", .vs "success"),
     ("expense_type", .vs (routerExpenseType message)),
     ("amount", .vi (firstNumber message)),
     ("response", .vs (expenseRecordedMsg (routerExpenseType message)
        (firstNumber message) driver_id nowShort)),
     ("routed_to", .vs (classify_message_intent message)),
     ("driver_id", .vs driver_id), ("timestamp", .vs now)]
  else
    [("type", .vs "general"), ("status", .vs "success"),
     ("response", .vs (generalMsg message)),
     ("routed_to", .vs (classify_message_intent message)),
     ("driver_id", .vs driver_id), ("timestamp", .vs now)]

end AgentRouter

namespace LoadFinder

open Logistics

/-! ### apps/agents/src/load_finder_agent.py

Python's stable `list.sort(key, reverse=True)` orders by key descending and
keeps the input order of equal keys; a stable sort with a total preorder is
extensionally unique, so the insertion sort below is a faithful model. -/

/-- Stable insert for a descending sort: x goes before the first element it
strictly beats; on equal keys the earlier (already-placed) element stays
first. -/
def insertByGe {α : Type} (ge : α → α → Bool) (x : α) : List α → List α
  | [] => [x]
  | y :: ys => if ge x y then x :: y :: ys else y :: insertByGe ge x ys

/-- Stable descending sort (model of list.sort(key=…, reverse=True)).
`ge a b` must hold exactly when a's key is ≥ b's key. -/
def stableSortDesc {α : Type} (ge : α → α → Bool) : List α → List α
  | [] => []
  | x :: xs => insertByGe ge x (stableSortDesc ge xs)

/-- One entry of the MOCK_LOADS list. -/
structure Load where
  load_id : String
  source : String
  destination : String
  material : String
  weight : String
  vehicle_type : String
  rate : String
  loading_date : String
  urgency : String
  company : String
deriving DecidableEq

/-- A load after search_available_loads added its match_score key. -/
structure ScoredLoad where
  load : Load
  match_score : Int
deriving DecidableEq

/-- A load after rank_and_filter_loads added its profitability_score key. -/
structure RankedLoad where
  scored : ScoredLoad
  profitability_score : ℚ
deriving DecidableEq

/-- The MOCK_LOADS constant. -/
def MOCK_LOADS : List Load :=
  [{ load_id := "LD001", source := "Delhi", destination := "Mumbai",
     material := "Electronics", weight := "10 tons", vehicle_type := "truck",
     rate := "₹45,000", loading_date := "2025-09-12", urgency := "normal",
     company := "TechCorp Ltd" },
   { load_id := "LD002", source := "Mumbai", destination := "Bangalore",
     material := "Textiles", weight := "8 tons", vehicle_type := "truck",
     rate := "₹32,000", loading_date := "2025-09-11", urgency := "urgent",
     company := "Fashion House" },
   { load_id := "LD003", source := "Chennai", destination := "Hyderabad",
     material := "Auto Parts", weight := "12 tons", vehicle_type := "truck",
     rate := "₹28,000", loading_date := "2025-09-13", urgency := "normal",
     company := "AutoMakers Inc" },
   { load_id := "LD004", source := "Delhi", destination := "Kolkata",
     material := "FMCG Products", weight := "15 tons", vehicle_type := "truck",
     rate := "₹52,000", loading_date := "2025-09-12", urgency := "high",
     company := "Consumer Goods Ltd" },
   { load_id := "LD005", source := "Pune", destination := "Delhi",
     material := "Machinery", weight := "20 tons", vehicle_type := "trailer",
     rate := "₹65,000", loading_date := "2025-09-14", urgency := "normal",
     company := "Heavy Industries" }]

/-- The LoadFinderState TypedDict. -/
structure LoadFinderState where
  query : String
  source_location : String
  destination_location : String
  vehicle_type : String
  load_capacity : String
  available_loads : List ScoredLoad
  matched_loads : List RankedLoad
  response_message : String
deriving DecidableEq

/-- The capacity loop of parse_load_query: first word containing "ton" at
index > 0 yields the previous word. -/
def tonCapGo (prev : Option (List Char)) : List (List Char) → Option (List Char)
  | [] => none
  | w :: r =>
    if isSubstr ("ton").data w ∧ prev.isSome then prev
    else tonCapGo (some w) r

/-- parse_load_query: the from/to split, the vehicle-type keywords, and the
ton-capacity scan, on the lower-cased query. -/
def parse_load_query (s : LoadFinderState) : LoadFinderState :=
  let q := lowerStr s.query
  let s1 :=
    if isSubstr ("from").data q ∧ isSubstr ("to").data q then
      let seg := (splitOnSub ("from").data q).getD 1 []
      let parts := splitOnSub ("to").data seg
      if 2 ≤ parts.length then
        { s with
          source_location := String.mk (pyTitle (pyStrip (parts.getD 0 [])))
          destination_location := String.mk (pyTitle (pyStrip (parts.getD 1 []))) }
      else s
    else s
  let s2 :=
    { s1 with vehicle_type :=
        if isSubstr ("truck").data q then "truck"
        else if isSubstr ("trailer").data q then "trailer"
        else "any" }
  if isSubstr ("ton").data q then
    match tonCapGo none (splitWS q) with
    | some cap => { s2 with load_capacity := String.mk cap ++ " tons" }
    | none => s2
  else s2

/-- The match score of one mock load against the parsed query. -/
def matchScoreOf (s : LoadFinderState) (l : Load) : Int :=
  (if s.source_location ≠ "" ∧
      isSubstr (lowerStr s.source_location) (lowerStr l.source) then 3 else 0) +
  (if s.destination_location ≠ "" ∧
      isSubstr (lowerStr s.destination_location) (lowerStr l.destination) then 3
   else 0) +
  (if s.vehicle_type ≠ "any" ∧ s.vehicle_type = l.vehicle_type then 2 else 0)

/-- Sort key comparison of search_available_loads:
(match_score, urgency == "urgent") descending, ties keep input order. -/
def searchKeyGe (a b : ScoredLoad) : Bool :=
  decide (b.match_score < a.match_score ∨
    (a.match_score = b.match_score ∧
      ((if b.load.urgency = "urgent" then 1 else 0) : Nat) ≤
        (if a.load.urgency = "urgent" then 1 else 0)))

/-- search_available_loads.  `rand i` models `random.random() > 0.7` for the
i-th mock load (the noisy inclusion of non-matching loads); the top 5 by
(match_score, urgency) are kept. -/
def search_available_loads (rand : Nat → Bool) (s : LoadFinderState) :
    LoadFinderState :=
  let candidates := MOCK_LOADS.enum.filterMap (fun p =>
    let ms := matchScoreOf s p.2
    if 0 < ms ∨ rand p.1 then some (ScoredLoad.mk p.2 ms) else none)
  { s with available_loads := (stableSortDesc searchKeyGe candidates).take 5 }

/-- Python int() on a string (sign + decimal digits; anything else raises
ValueError, modelled by none). -/
def pyInt (l : List Char) : Option Int :=
  let t := pyStrip l
  match t with
  | '-' :: ds =>
    if ¬ ds.isEmpty ∧ ds.all Char.isDigit then some (-(natOfDigits ds : Int))
    else none
  | '+' :: ds =>
    if ¬ ds.isEmpty ∧ ds.all Char.isDigit then some (natOfDigits ds : Int)
    else none
  | ds =>
    if ¬ ds.isEmpty ∧ ds.all Char.isDigit then some (natOfDigits ds : Int)
    else none

/-- Python float() on a string for the plain decimal forms appearing here
(sign, digits, optional point and digits; exponents are not modelled —
no weight string uses them).  none models ValueError. -/
def pyFloat (l : List Char) : Option ℚ :=
  let t := pyStrip l
  let (sign, u) : ℚ × List Char :=
    match t with
    | '-' :: r => (-1, r)
    | '+' :: r => (1, r)
    | r => (1, r)
  let d1 := u.takeWhile Char.isDigit
  let r1 := u.dropWhile Char.isDigit
  match r1 with
  | [] => if d1.isEmpty then none else some (sign * (natOfDigits d1 : ℚ))
  | '.' :: r2 =>
    let d2 := r2.takeWhile Char.isDigit
    let r3 := r2.dropWhile Char.isDigit
    if r3.isEmpty ∧ ¬ (d1.isEmpty ∧ d2.isEmpty) then
      some (sign * ((natOfDigits d1 : ℚ) +
        (natOfDigits d2 : ℚ) / (10 : ℚ) ^ d2.length))
    else none
  | _ => none

/-- The urgency_bonus dict lookup with default 1.0. -/
def urgencyBonus (u : String) : ℚ :=
  if u = "urgent" then 13 / 10
  else if u = "high" then 12 / 10
  else if u = "normal" then 1
  else 1

/-- The raw profitability of rank_and_filter_loads:
int(rate minus currency and commas) / (float(first word of weight) * 100).
none models the exceptions of int() / float() / the [0] index on an empty
split / division by zero. -/
def rawProfit (l : ScoredLoad) : Option ℚ := do
  let rv ← pyInt (l.load.rate.data.filter (fun c => c ≠ '₹' ∧ c ≠ ','))
  let wv ← ((splitWS l.load.weight.data).head?).bind pyFloat
  if wv * 100 = 0 then none
  else some ((rv : ℚ) / (wv * 100))

/-- One iteration of the ranking loop: profitability times urgency bonus,
rounded to two decimals and stored as profitability_score. -/
def rankOne (l : ScoredLoad) : Option RankedLoad :=
  (rawProfit l).map (fun p =>
    RankedLoad.mk l (pyRoundTo 2 (p * urgencyBonus l.load.urgency)))

/-- Sort key comparison of rank_and_filter_loads: profitability_score
descending, ties keep input order. -/
def rankKeyGe (a b : RankedLoad) : Bool :=
  decide (b.profitability_score ≤ a.profitability_score)

/-- The ranking for-loop over available_loads: none as soon as an iteration
raises. -/
def rankAll : List ScoredLoad → Option (List RankedLoad)
  | [] => some []
  | l :: r =>
    match rankOne l with
    | some x => (rankAll r).map (fun xs => x :: xs)
    | none => none

/-- rank_and_filter_loads: score every available load, then the stable
descending sort by profitability_score; none models a raised exception. -/
def rank_and_filter_loads (s : LoadFinderState) : Option LoadFinderState :=
  match rankAll s.available_loads with
  | some ranked =>
    some { s with matched_loads := stableSortDesc rankKeyGe ranked }
  | none => none

/-- The urgency emoji map of generate_load_response (default 📦). -/
def urgencyEmoji (u : String) : String :=
  if u = "urgent" then "🔥" else if u = "high" then "⚡" else "📦"

/-- One rendered load block of generate_load_response (1-based index). -/
def renderLoad (p : Nat × RankedLoad) : String :=
  urgencyEmoji p.2.scored.load.urgency ++ " **Load #" ++ Nat.repr p.1 ++ "**\n" ++
  "📍 **Route:** " ++ p.2.scored.load.source ++ " → " ++
    p.2.scored.load.destination ++ "\n" ++
  "📦 **Material:** " ++ p.2.scored.load.material ++ " (" ++
    p.2.scored.load.weight ++ ")\n" ++
  "💰 **Rate:** " ++ p.2.scored.load.rate ++ "\n" ++
  "📅 **Loading:** " ++ p.2.scored.load.loading_date ++ "\n" ++
  "🏢 **Company:** " ++ p.2.scored.load.company ++ "\n" ++
  "⭐ **Score:** " ++ ExpenseTracker.pyFloatRepr p.2.profitability_score ++ "/10\n" ++
  String.mk (List.replicate 40 '─') ++ "\n\n"

/-- generate_load_response: the no-loads message, or the header, the top 3
rendered loads, the more-loads note, and the next-steps footer. -/
def generate_load_response (s : LoadFinderState) : LoadFinderState :=
  if s.matched_loads = [] then
    { s with response_message :=
        "❌ No loads found matching your criteria. Try different locations or vehicle types." }
  else
    { s with response_message :=
        "🚛 **AVAILABLE LOADS FOUND:**\n\n" ++
        String.join (((s.matched_loads.take 3).enumFrom 1).map renderLoad) ++
        (if 3 < s.matched_loads.length then
          "📋 *Found " ++ Nat.repr (s.matched_loads.length - 3) ++
            " more loads. Contact for details.*\n\n"
         else "") ++
        "💡 **Next Steps:**\n" ++
        "• Reply with load number to get contact details\n" ++
        "• Say \x27book Load #1\x27 to reserve the trip\n" ++
        "• Search again with different criteria anytime" }

end LoadFinder

namespace AvailabilityAgent

open Logistics

/-! ### apps/agents/src/availability_agent.py

The Gemini LLM calls and the Supabase database calls are external adapters:
their outcomes are parameters (none / false modelling a raised exception or
a failed call), and the deterministic fallback paths are embedded from the
source. -/

/-- The DriverStatusAnalysis schema parsed from the LLM response. -/
structure DriverStatusAnalysis where
  status : String
  location : String
  vehicle_type : String
  confidence : ℚ
  reasoning : String
deriving DecidableEq

/-- The AvailabilityState TypedDict. -/
structure AvailabilityState where
  original_message : String
  response_message : String
  driver_id : String
  status : String
  location : String
  vehicle_type : String
  last_updated : String
  confidence : ℚ
  reasoning : String
  error : Option String
deriving DecidableEq

/-- SUPPORTED_CITIES (original capitalisation, as stored). -/
def SUPPORTED_CITIES : List String :=
  ["Delhi", "Mumbai", "Bangalore", "Chennai", "Kolkata", "Pune", "Hyderabad",
   "Ahmedabad", "Surat", "Jaipur", "Lucknow", "Kanpur", "Nagpur", "Indore"]

/-- SUPPORTED_VEHICLES. -/
def SUPPORTED_VEHICLES : List String :=
  ["truck", "trailer", "tempo", "container", "tanker"]

/-- Python truthiness of state.get("error"): None and "" are falsy. -/
def errTruthy : Option String → Bool
  | none => false
  | some t => t ≠ ""

/-- The keyword fallback of analyze_availability (used when the Gemini call
or its JSON parsing raises). -/
def fallbackStatus (ml : List Char) : String :=
  if (["busy", "trip pe", "load leke", "ja raha"] : List String).any
      (fun w => isSubstr w.data ml) then "busy"
  else if (["rest", "break", "offline", "kal subah"] : List String).any
      (fun w => isSubstr w.data ml) then "offline"
  else if (["free", "available", "khali", "complete"] : List String).any
      (fun w => isSubstr w.data ml) then "available"
  else if (["load", "trip", "delivery"] : List String).any
      (fun w => isSubstr w.data ml) then "busy"
  else "available"

/-- analyze_availability.  `driverOk` models ensure_driver_exists;
`gemini` the structured LLM analysis (none = the call raised). -/
def analyze_availability (driverOk : Bool) (gemini : Option DriverStatusAnalysis)
    (s : AvailabilityState) : AvailabilityState :=
  if ¬ driverOk then
    { s with status := "error", reasoning := "Driver creation failed",
             error := some ("Failed to create record for " ++ s.driver_id) }
  else
    match gemini with
    | some a =>
      { s with status := a.status, location := a.location,
               vehicle_type := a.vehicle_type, confidence := a.confidence,
               reasoning := a.reasoning, error := none }
    | none =>
      let ml := lowerStr s.original_message
      let status := fallbackStatus ml
      { s with
        status := status
        location := (SUPPORTED_CITIES.find? (fun c => isSubstr (lowerStr c) ml)).getD ""
        vehicle_type := (SUPPORTED_VEHICLES.find? (fun v => isSubstr v.data ml)).getD ""
        confidence := 4 / 5
        reasoning := "Fallback logic detected \x27" ++ status ++ "\x27"
        error := none }

/-- update_driver_database.  `saveOk` models save_driver_status, `now` the
datetime.now().isoformat() value. -/
def update_driver_database (saveOk : Bool) (now : String)
    (s : AvailabilityState) : AvailabilityState :=
  if errTruthy s.error then s
  else if saveOk then { s with last_updated := now }
  else { s with error := some "Database update failed" }

/-- The template responses of generate_response's fallback branch. -/
def templateResponse (s : AvailabilityState) : String :=
  if s.status = "available" then
    "Perfect! Aap " ++ (if s.location ≠ "" then s.location ++ " mein " else "") ++
      "available hain. Load dhundte hain."
  else if s.status = "busy" then
    "Samjha Bhai. Safe driving! Trip complete hone par update karna."
  else if s.status = "offline" then
    "Theek hai. Rest karo, available hone par message karna."
  else "Message samjh gaya. Kuch aur help chahiye?"

/-- generate_response.  `gemini` is the LLM reply text (none = the call
raised); a reply is stripped and stripped of `*` and `"` characters. -/
def generate_response (gemini : Option String) (s : AvailabilityState) :
    AvailabilityState :=
  if errTruthy s.error then
    { s with response_message :=
        "Apka message mil gaya hai. System mein kuch issue hai, jald theek kar denge." }
  else
    match gemini with
    | some t =>
      { s with response_message :=
          String.mk ((pyStrip t.data).filter (fun c => c ≠ '*' ∧ c ≠ '\x22')) }
    | none => { s with response_message := templateResponse s }

/-- log_interaction: records the interaction out-of-band (`logOk` models
save_interaction) and returns the state unchanged. -/
def log_interaction (_logOk : Bool) (s : AvailabilityState) : AvailabilityState :=
  s

end AvailabilityAgent

namespace AgentRouter

/-- The envelope keys that every route_message_to_agent branch must carry. -/
def requiredKeys : List String :=
  ["type", "status", "response", "routed_to", "driver_id"]

end AgentRouter

namespace ExpenseTracker

/-- The warning conditions of validate_expense_data as the claim (C3)
enumerates them, for an amount already known to be positive. -/
def warnCond (s : ExpenseState) : Prop :=
  max_amount s.expense_type < s.amount ∨
  (s.expense_type = .fuel ∧ s.amount < 100) ∨
  (s.expense_type = .toll ∧ 2000 < s.amount) ∨
  (s.location = "" ∧
    (s.expense_type = .fuel ∨ s.expense_type = .toll ∨ s.expense_type = .parking))

/-- A minimal state whose five confidence fields are all absent. -/
def confEmpty : ExpenseState := initialExpenseState "m" "d"

/-- A state whose five confidence fields are all present. -/
def confFull : ExpenseState :=
  { confEmpty with amount := 2500, expense_type := .fuel, location := "Delhi",
                   receipt_number := "R1", vendor_name := "V123" }

/-- A state whose amount breaches the fuel ceiling (claim C3's example). -/
def fuelCeilingState : ExpenseState :=
  { confEmpty with amount := 60000, expense_type := .fuel, location := "Delhi" }

end ExpenseTracker

namespace LoadFinder

/-- A candidate with urgency "normal" and tiny posted rate: its raw
profitability 1/1000 rounds to 0.00 at two decimals. -/
def tinyNormalLoad : ScoredLoad :=
  ⟨{ load_id := "LDA", source := "Delhi", destination := "Mumbai",
     material := "Goods", weight := "10 tons", vehicle_type := "truck",
     rate := "₹1", loading_date := "2025-09-12", urgency := "normal",
     company := "A Ltd" }, 3⟩

/-- The same candidate but with urgency "urgent". -/
def tinyUrgentLoad : ScoredLoad :=
  ⟨{ load_id := "LDB", source := "Delhi", destination := "Mumbai",
     material := "Goods", weight := "10 tons", vehicle_type := "truck",
     rate := "₹1", loading_date := "2025-09-12", urgency := "urgent",
     company := "B Ltd" }, 3⟩

/-- tinyNormalLoad with a realistic rate (raw profitability 45). -/
def bigNormalLoad : ScoredLoad :=
  ⟨{ tinyNormalLoad.load with rate := "₹45,000" }, tinyNormalLoad.match_score⟩

/-- tinyUrgentLoad with a realistic rate (raw profitability 45). -/
def bigUrgentLoad : ScoredLoad :=
  ⟨{ tinyUrgentLoad.load with rate := "₹45,000" }, tinyUrgentLoad.match_score⟩

/-- An empty pipeline state around a given available_loads list. -/
def lfWith (loads : List ScoredLoad) : LoadFinderState :=
  { query := "loads from delhi to mumbai", source_location := "",
    destination_location := "", vehicle_type := "any", load_capacity := "",
    available_loads := loads, matched_loads := [], response_message := "" }

/-- The ranking stage's output on lfWith [tinyNormalLoad, tinyUrgentLoad]:
both scores round to 0 and the stable sort keeps the input order. -/
def lfTinyRanked : LoadFinderState :=
  { lfWith [tinyNormalLoad, tinyUrgentLoad] with
    matched_loads := [⟨tinyNormalLoad, 0⟩, ⟨tinyUrgentLoad, 0⟩] }

end LoadFinder

namespace Logistics

open AgentRouter

/-- C1 counterexample: on "free load" the availability and load scores tie
at 1 (nonzero), so the claim's reading falls through to the context
heuristic and yields "general", but the source classifier returns
"availability" (its third branch needs only a positive availability score,
not a strict maximum). -/
theorem classify_tie_counterexample :
    classify_message_intent "free load" = "availability" ∧
    claimClassify "free load" = "general" := by decide

/-- C1 amended: classify returns the category with the strictly highest
score when one exists; when no category is strictly highest (a tie for the
top, or all-zero scores), the result is availability whenever the
availability score is positive, and only otherwise falls through to the
context heuristic. -/
theorem classify_amended_spec (msg : String) :
    (load_score (lowerStr msg) > availability_score (lowerStr msg) ∧
       load_score (lowerStr msg) > expense_score (lowerStr msg) →
      classify_message_intent msg = "load_search") ∧
    (expense_score (lowerStr msg) > availability_score (lowerStr msg) ∧
       expense_score (lowerStr msg) > load_score (lowerStr msg) →
      classify_message_intent msg = "expense_tracking") ∧
    (availability_score (lowerStr msg) > load_score (lowerStr msg) ∧
       availability_score (lowerStr msg) > expense_score (lowerStr msg) →
      classify_message_intent msg = "availability") ∧
    (¬ (load_score (lowerStr msg) > availability_score (lowerStr msg) ∧
        load_score (lowerStr msg) > expense_score (lowerStr msg)) →
     ¬ (expense_score (lowerStr msg) > availability_score (lowerStr msg) ∧
        expense_score (lowerStr msg) > load_score (lowerStr msg)) →
     ¬ (availability_score (lowerStr msg) > load_score (lowerStr msg) ∧
        availability_score (lowerStr msg) > expense_score (lowerStr msg)) →
      (0 < availability_score (lowerStr msg) →
        classify_message_intent msg = "availability") ∧
      (availability_score (lowerStr msg) = 0 →
        classify_message_intent msg =
          (if context_keywords.any (fun k => isSubstr k (lowerStr msg)) then
            "load_search"
          else "general"))) := by
  simp only [classify_message_intent]
  refine ⟨?_, ?_, ?_, ?_⟩
  · intro h
    rw [if_pos h]
  · intro h
    rw [if_neg (by omega), if_pos h]
  · intro h
    rw [if_neg (by omega), if_neg (by omega), if_pos (by omega)]
  · intro h1 h2 h3
    constructor
    · intro ha
      rw [if_neg h1, if_neg h2, if_pos ha]
    · intro ha
      rw [if_neg h1, if_neg h2, if_neg (by omega)]

/-- C1 amended witness at "need loads from delhi": the load score (3)
strictly exceeds both others. -/
theorem classify_amended_spec_witness :
    classify_message_intent "need loads from delhi" = "load_search" :=
  (classify_amended_spec "need loads from delhi").1 (by decide)

end Logistics

namespace Logistics

open AgentRouter

/-- C2: for every message, sender id, timestamp pair and availability-agent
outcome, route_message_to_agent returns an envelope carrying the keys type,
status, response, routed_to and driver_id; and when the dispatched handler
raises, the envelope has type "error", carries the exception's description
under the error key, and its routed_to field is the intent detected before
dispatch. -/
theorem router_envelope_total (message driver_id now nowShort : String)
    (avail : AvailOutcome) :
    (∀ k ∈ requiredKeys,
      ((route_message_to_agent message driver_id now nowShort avail).lookup k).isSome
        = true) ∧
    (∀ e, avail = .raised e →
      classify_message_intent message = "availability" →
      (route_message_to_agent message driver_id now nowShort avail).lookup "type"
          = some (.vs "error") ∧
      (route_message_to_agent message driver_id now nowShort avail).lookup "error"
          = some (.vs e) ∧
      (route_message_to_agent message driver_id now nowShort avail).lookup "routed_to"
          = some (.vs "availability")) := by
  constructor
  · intro k hk
    fin_cases hk <;>
      · unfold route_message_to_agent
        split_ifs <;> cases avail <;> simp [errorEnvelope, List.lookup]
  · intro e he hc
    subst he
    unfold route_message_to_agent
    simp [hc, errorEnvelope, List.lookup]

/-- C2 witness: on "I am free" (classified availability) with a raised
exception "boom", the envelope keys are present and the error envelope is
tagged with the availability intent. -/
theorem router_envelope_total_witness :
    (((route_message_to_agent "I am free" "d1" "t1" "t2" (.raised "boom")).lookup
        "type").isSome = true) ∧
    (route_message_to_agent "I am free" "d1" "t1" "t2" (.raised "boom")).lookup
        "error" = some (.vs "boom") ∧
    (route_message_to_agent "I am free" "d1" "t1" "t2" (.raised "boom")).lookup
        "routed_to" = some (.vs "availability") := by
  have h := router_envelope_total "I am free" "d1" "t1" "t2" (.raised "boom")
  exact ⟨h.1 "type" (by decide),
    (h.2 "boom" rfl (by decide)).2.1,
    (h.2 "boom" rfl (by decide)).2.2⟩

end Logistics

namespace Logistics

open ExpenseTracker

set_option maxHeartbeats 1000000 in
/-- C3: validate_expense_data sets validation_status to "failed" exactly
when the amount is non-positive; for a positive amount the status is
"warning" exactly when one of the four warning conditions holds (ceiling
breach, fuel below 100, toll above 2000, empty location for
fuel/toll/parking) and "passed" exactly otherwise — never "failed". -/
theorem validate_status_spec (s : ExpenseState) :
    ((validate_expense_data s).validation_status = "failed" ↔ s.amount ≤ 0) ∧
    (0 < s.amount →
      (((validate_expense_data s).validation_status = "warning") ↔ warnCond s) ∧
      (((validate_expense_data s).validation_status = "passed") ↔ ¬ warnCond s)) := by
  unfold validate_expense_data warnCond
  by_cases ha : s.amount ≤ 0 <;>
  by_cases h1 : max_amount s.expense_type < s.amount <;>
  by_cases h2 : s.expense_type = ExpenseCategory.fuel ∧ s.amount < 100 <;>
  by_cases h3 : s.expense_type = ExpenseCategory.toll ∧ 2000 < s.amount <;>
  by_cases h4 : s.location = "" ∧
      (s.expense_type = ExpenseCategory.fuel ∨
       s.expense_type = ExpenseCategory.toll ∨
       s.expense_type = ExpenseCategory.parking) <;>
    simp_all

/-- C3 witness: amount 60000 with category fuel (ceiling 50000) and a
non-empty location yields "warning", not "failed". -/
theorem validate_status_spec_witness :
    (validate_expense_data fuelCeilingState).validation_status = "warning" :=
  ((validate_status_spec fuelCeilingState).2
      (by norm_num [fuelCeilingState, confEmpty, initialExpenseState])).1.mpr
    (Or.inl (by norm_num [fuelCeilingState, confEmpty, initialExpenseState, max_amount]))

end Logistics

namespace Logistics

open ExpenseTracker

/-- C4 counterexample: on "hello" (no amount found, validation failed) the
save stage still runs — the linear workflow has no conditional edge — and
builds and logs an expense record carrying the failed state's data, so the
record is not withheld from the persist/save stage on the failed path. -/
theorem expense_failed_path_saves_record :
    (run_expense_workflow 12345 "2025-09-12 10:00:00" "20250912_100000"
        (initialExpenseState "hello" "d1")).1.validation_status = "failed" ∧
    (run_expense_workflow 12345 "2025-09-12 10:00:00" "20250912_100000"
        (initialExpenseState "hello" "d1")).2 =
      { expense_id := "EXP_20250912_100000", driver_id := "d1",
        rec_type := .other, amount := 0, location := "", vendor := "",
        receipt_number := "", timestamp := "2025-09-12 10:00:00",
        trip_id := none, validation_status := "failed",
        confidence_score := 0 } :=
  of_decide_eq_true (by with_unfolding_all rfl)

/-- C4 amended: when the extracted amount is non-positive the pipeline
surfaces a failed envelope listing the validation issues, and the mock save
stage stores nothing anywhere (it returns the state unchanged) — but it is
executed on the failed path too, logging the failed record, because the
workflow's edges are unconditional. -/
theorem expense_failed_envelope (msg d : String) (rng : Nat) (now nowId : String) :
    extract_amount (lowerStr msg) ≤ 0 →
    (run_expense_workflow rng now nowId (initialExpenseState msg d)).1.validation_status
        = "failed" ∧
    (run_expense_workflow rng now nowId (initialExpenseState msg d)).1.response_message
        = expenseFailedMsg ["Amount not found or invalid"] ∧
    (run_expense_workflow rng now nowId (initialExpenseState msg d)).2.validation_status
        = "failed" ∧
    (∀ t : ExpenseState, (save_expense_record nowId t).1 = t) := by
  intro h
  unfold run_expense_workflow parse_expense_message validate_expense_data
    save_expense_record generate_expense_response initialExpenseState
  simp [h]

/-- C4 amended witness at the concrete failed input "hello". -/
theorem expense_failed_envelope_witness :
    (run_expense_workflow 7 "T" "TID" (initialExpenseState "hello" "d2")).1.response_message
      = expenseFailedMsg ["Amount not found or invalid"] :=
  (expense_failed_envelope "hello" "d2" 7 "T" "TID"
    (of_decide_eq_true (by with_unfolding_all rfl))).2.1

end Logistics

namespace Logistics

open ExpenseTracker

set_option maxRecDepth 4000 in
/-- C5 evaluation at the failing input: the source file's rupee-sign
pattern is encoding-corrupted (it contains the mojibake sequence
U+00E2 U+201A U+00B9 instead of U+20B9), so extracting from the genuine
"₹1,500" matches no pattern and yields the 0.0 sentinel — not 1500.0 as the
claim states; "1500 rupees" still yields 1500.0, and a message carrying the
corrupted byte sequence itself is what actually yields 1500.0. -/
theorem rupee_mojibake_extraction :
    extract_amount (lowerStr "₹1,500") = 0 ∧
    extract_amount (lowerStr "1500 rupees") = 1500 ∧
    extract_amount (lowerStr (String.mk mojibakeRupee ++ "1,500")) = 1500 ∧
    (∀ msg : String, amount_patterns.findSome? (fun p => p (lowerStr msg)) = none →
      extract_amount (lowerStr msg) = 0) :=
  ⟨of_decide_eq_true (by with_unfolding_all rfl),
   of_decide_eq_true (by with_unfolding_all rfl),
   of_decide_eq_true (by with_unfolding_all rfl),
   fun msg h => by unfold extract_amount; rw [h]; rfl⟩

end Logistics

namespace Logistics

open ExpenseTracker

/-- Helper: a 0-or-c weight is monotone along an implication of the
presence conditions. -/
theorem iteWeight_mono {P Q : Prop} [Decidable P] [Decidable Q] (c : ℚ)
    (hc : 0 ≤ c) (h : P → Q) : (if P then c else 0) ≤ (if Q then c else 0) := by
  split_ifs with hP hQ
  · exact le_refl c
  · exact absurd (h hP) hQ
  · exact hc
  · exact le_refl 0

/-- C6: the confidence score equals the weighted presence sum
(+40 amount, +20 category ≠ other, +15 receipt, +15 location, +10 vendor),
lies in [0, 100] for every state, and is monotone non-decreasing as more of
the five fields become present. -/
theorem confidence_score_spec (s : ExpenseState) :
    calculate_confidence_score s =
      (if 0 < s.amount then (40 : ℚ) else 0) +
      (if s.expense_type ≠ .other then (20 : ℚ) else 0) +
      (if s.receipt_number ≠ "" then (15 : ℚ) else 0) +
      (if s.location ≠ "" then (15 : ℚ) else 0) +
      (if s.vendor_name ≠ "" then (10 : ℚ) else 0) ∧
    0 ≤ calculate_confidence_score s ∧ calculate_confidence_score s ≤ 100 ∧
    (∀ t : ExpenseState,
      (0 < s.amount → 0 < t.amount) →
      (s.expense_type ≠ .other → t.expense_type ≠ .other) →
      (s.receipt_number ≠ "" → t.receipt_number ≠ "") →
      (s.location ≠ "" → t.location ≠ "") →
      (s.vendor_name ≠ "" → t.vendor_name ≠ "") →
      calculate_confidence_score s ≤ calculate_confidence_score t) := by
  have key : ∀ u : ExpenseState, calculate_confidence_score u =
      (if 0 < u.amount then (40 : ℚ) else 0) +
      (if u.expense_type ≠ .other then (20 : ℚ) else 0) +
      (if u.receipt_number ≠ "" then (15 : ℚ) else 0) +
      (if u.location ≠ "" then (15 : ℚ) else 0) +
      (if u.vendor_name ≠ "" then (10 : ℚ) else 0) := by
    intro u
    unfold calculate_confidence_score
    split_ifs <;> exact of_decide_eq_true (by with_unfolding_all rfl)
  refine ⟨key s, ?_, ?_, ?_⟩
  · rw [key s]; split_ifs <;> norm_num
  · rw [key s]; split_ifs <;> norm_num
  · intro t h1 h2 h3 h4 h5
    rw [key s, key t]
    exact add_le_add (add_le_add (add_le_add (add_le_add
      (iteWeight_mono 40 (by norm_num) h1) (iteWeight_mono 20 (by norm_num) h2))
      (iteWeight_mono 15 (by norm_num) h3)) (iteWeight_mono 15 (by norm_num) h4))
      (iteWeight_mono 10 (by norm_num) h5)

/-- C6 witness: the all-absent state scores no more than the all-present
state (0 ≤ 100 via the monotonicity clause, hypotheses discharged). -/
theorem confidence_score_spec_witness :
    calculate_confidence_score confEmpty ≤ calculate_confidence_score confFull :=
  (confidence_score_spec confEmpty).2.2.2 confFull
    (by norm_num [confEmpty, confFull, initialExpenseState])
    (by norm_num [confEmpty, confFull, initialExpenseState])
    (by norm_num [confEmpty, confFull, initialExpenseState])
    (by norm_num [confEmpty, confFull, initialExpenseState])
    (by norm_num [confEmpty, confFull, initialExpenseState])

end Logistics

namespace Logistics

open LoadFinder

set_option maxRecDepth 8000 in
/-- C7 counterexample: two candidates with equal match score 3 and equal
positive raw profitability 1/1000, the first "normal" and the second
"urgent".  Both final scores round to 0.00 at two decimals, the stable sort
keeps the input order, and the urgent candidate is ranked BELOW the normal
one — the urgency multiplier is erased by the round(…, 2) before sorting. -/
theorem rank_rounding_tie_counterexample :
    ((rank_and_filter_loads (lfWith [tinyNormalLoad, tinyUrgentLoad])).map
      (fun st => st.matched_loads.map
        (fun r => (r.scored.load.load_id, r.scored.load.urgency,
                   r.profitability_score))))
      = some [("LDA", "normal", 0), ("LDB", "urgent", 0)] ∧
    rawProfit tinyNormalLoad = some (1 / 1000) ∧
    rawProfit tinyUrgentLoad = some (1 / 1000) ∧
    tinyNormalLoad.match_score = tinyUrgentLoad.match_score :=
  of_decide_eq_true (by with_unfolding_all rfl)

/-- C7 amended: with equal match scores and equal positive raw
profitability p, the urgent candidate is ranked above the normal one in
either input order whenever the two rounded (2-decimal) scores differ,
i.e. round2(1.3·p) > round2(p); when rounding collapses the scores the
stable sort preserves the input order instead. -/
theorem rank_urgent_above_normal (a b : ScoredLoad) (s : LoadFinderState) (p : ℚ)
    (hra : rawProfit a = some p) (hrb : rawProfit b = some p) (hp : 0 < p)
    (ha : a.load.urgency = "urgent") (hb : b.load.urgency = "normal")
    (hlt : pyRoundTo 2 p < pyRoundTo 2 (p * (13 / 10))) :
    ((rank_and_filter_loads { s with available_loads := [a, b] }).map
      (fun st => st.matched_loads.map (fun r => r.scored.load.load_id)))
      = some [a.load.load_id, b.load.load_id] ∧
    ((rank_and_filter_loads { s with available_loads := [b, a] }).map
      (fun st => st.matched_loads.map (fun r => r.scored.load.load_id)))
      = some [a.load.load_id, b.load.load_id] := by
  have hbonus : urgencyBonus "normal" = 1 := by simp [urgencyBonus]
  have hbonus2 : urgencyBonus "urgent" = 13 / 10 := by simp [urgencyBonus]
  constructor <;>
  · simp [rank_and_filter_loads, rankAll, rankOne, hra, hrb, ha, hb, hbonus,
      hbonus2, stableSortDesc, insertByGe, rankKeyGe, hlt.le, not_le.mpr hlt]

/-- C7 amended witness: the same pair with realistic rate ₹45,000 and
weight 10 tons (raw profitability 45): round2(58.5) > round2(45), so the
urgent load is ranked first from either input order. -/
theorem rank_urgent_above_normal_witness :
    ((rank_and_filter_loads (lfWith [bigNormalLoad, bigUrgentLoad])).map
      (fun st => st.matched_loads.map (fun r => r.scored.load.load_id)))
      = some ["LDB", "LDA"] :=
  (rank_urgent_above_normal bigUrgentLoad bigNormalLoad (lfWith []) 45
    (of_decide_eq_true (by with_unfolding_all rfl))
    (of_decide_eq_true (by with_unfolding_all rfl))
    (by norm_num) rfl rfl
    (of_decide_eq_true (by with_unfolding_all rfl))).2

end Logistics

namespace Logistics

open AgentRouter ExpenseTracker

unseal Rat.add Rat.mul Rat.inv in
/-- Helper: the parse stage on "Fuel expense 2500 at Delhi" (any receipt
suffix, any timestamp): amount 2500 by pattern 7 (expense␣NUM), category
fuel, location "Delhi", no receipt pattern (so a synthesised id), vendor
"Delhi" via the at-pattern. -/
theorem parse_fuel2500 (rng : Nat) (now : String) :
    parse_expense_message rng now
        (initialExpenseState "Fuel expense 2500 at Delhi" "d1") =
      { initialExpenseState "Fuel expense 2500 at Delhi" "d1" with
        amount := 2500, expense_type := .fuel, location := "Delhi",
        receipt_number := String.mk (("EXP").data ++ (Nat.repr rng).data),
        vendor_name := "Delhi", timestamp := now } := by
  have hamt : extract_amount (lowerStr "Fuel expense 2500 at Delhi") = 2500 := by
    decide
  have hcat : detectCategory (lowerStr "Fuel expense 2500 at Delhi") = .fuel := by
    decide
  have hloc : extract_location (lowerStr "Fuel expense 2500 at Delhi")
      = ("Delhi").data := by decide
  have hrec : extract_receipt (lowerStr "Fuel expense 2500 at Delhi") = [] := by
    decide
  have hvend : extract_vendor (lowerStr "Fuel expense 2500 at Delhi")
      = ("Delhi").data := by decide
  unfold parse_expense_message
  simp only [initialExpenseState] at hamt hcat hloc hrec hvend ⊢
  rw [hamt, hcat, hloc, hrec, hvend]
  norm_num

end Logistics

namespace Logistics

open AgentRouter ExpenseTracker

/-- C8: the message "Fuel expense 2500 at Delhi" classifies as
expense_tracking, and the expense pipeline (for every drawn receipt suffix
and every timestamp) produces amount 2500.0, expense_type fuel, location
"Delhi" and validation_status "passed". -/
theorem fuel_expense_end_to_end (rng : Nat) (now nowId : String) :
    classify_message_intent "Fuel expense 2500 at Delhi" = "expense_tracking" ∧
    (run_expense_workflow rng now nowId
        (initialExpenseState "Fuel expense 2500 at Delhi" "d1")).1.amount = 2500 ∧
    (run_expense_workflow rng now nowId
        (initialExpenseState "Fuel expense 2500 at Delhi" "d1")).1.expense_type
      = .fuel ∧
    (run_expense_workflow rng now nowId
        (initialExpenseState "Fuel expense 2500 at Delhi" "d1")).1.location
      = "Delhi" ∧
    (run_expense_workflow rng now nowId
        (initialExpenseState "Fuel expense 2500 at Delhi" "d1")).1.validation_status
      = "passed" := by
  have hsave : ∀ (nid : String) (u : ExpenseState),
      (save_expense_record nid u).1 = u := fun _ _ => rfl
  have hgenStat : ∀ u : ExpenseState,
      (generate_expense_response u).validation_status = u.validation_status := by
    intro u; unfold generate_expense_response; split <;> rfl
  have hgenAmt : ∀ u : ExpenseState,
      (generate_expense_response u).amount = u.amount := by
    intro u; unfold generate_expense_response; split <;> rfl
  have hgenTyp : ∀ u : ExpenseState,
      (generate_expense_response u).expense_type = u.expense_type := by
    intro u; unfold generate_expense_response; split <;> rfl
  have hgenLoc : ∀ u : ExpenseState,
      (generate_expense_response u).location = u.location := by
    intro u; unfold generate_expense_response; split <;> rfl
  have hvalAmt : ∀ u : ExpenseState,
      (validate_expense_data u).amount = u.amount := fun _ => rfl
  have hvalTyp : ∀ u : ExpenseState,
      (validate_expense_data u).expense_type = u.expense_type := fun _ => rfl
  have hvalLoc : ∀ u : ExpenseState,
      (validate_expense_data u).location = u.location := fun _ => rfl
  refine ⟨by decide, ?_, ?_, ?_, ?_⟩
  · unfold run_expense_workflow
    rw [parse_fuel2500, hsave, hgenAmt, hvalAmt]
  · unfold run_expense_workflow
    rw [parse_fuel2500, hsave, hgenTyp, hvalTyp]
  · unfold run_expense_workflow
    rw [parse_fuel2500, hsave, hgenLoc, hvalLoc]
  · unfold run_expense_workflow
    rw [parse_fuel2500, hsave, hgenStat]
    unfold validate_expense_data
    dsimp only
    norm_num [max_amount]
    intro h
    exact absurd (h (by decide)) (by decide)

end Logistics

namespace Logistics

open ExpenseTracker LoadFinder AvailabilityAgent

/-- C9: every stage of the three pipelines leaves the state's input fields
— the original message / query text and the driver id — unchanged, for all
effect outcomes.  (The load-finder state carries no driver-id field, so its
input field is the query alone.)  The ranking stage may raise (Option);
preservation is asserted for its successful runs. -/
theorem pipeline_stage_frame :
    (∀ (rng : Nat) (now : String) (s : ExpenseState),
      (parse_expense_message rng now s).message = s.message ∧
      (parse_expense_message rng now s).driver_id = s.driver_id) ∧
    (∀ s : ExpenseState,
      (validate_expense_data s).message = s.message ∧
      (validate_expense_data s).driver_id = s.driver_id) ∧
    (∀ (nowId : String) (s : ExpenseState),
      (save_expense_record nowId s).1.message = s.message ∧
      (save_expense_record nowId s).1.driver_id = s.driver_id) ∧
    (∀ s : ExpenseState,
      (generate_expense_response s).message = s.message ∧
      (generate_expense_response s).driver_id = s.driver_id) ∧
    (∀ s : LoadFinderState, (parse_load_query s).query = s.query) ∧
    (∀ (rand : Nat → Bool) (s : LoadFinderState),
      (search_available_loads rand s).query = s.query) ∧
    (∀ s s' : LoadFinderState,
      rank_and_filter_loads s = some s' → s'.query = s.query) ∧
    (∀ s : LoadFinderState, (generate_load_response s).query = s.query) ∧
    (∀ (driverOk : Bool) (gemini : Option DriverStatusAnalysis)
        (s : AvailabilityState),
      (analyze_availability driverOk gemini s).original_message
          = s.original_message ∧
      (analyze_availability driverOk gemini s).driver_id = s.driver_id) ∧
    (∀ (saveOk : Bool) (now : String) (s : AvailabilityState),
      (update_driver_database saveOk now s).original_message
          = s.original_message ∧
      (update_driver_database saveOk now s).driver_id = s.driver_id) ∧
    (∀ (gemini : Option String) (s : AvailabilityState),
      (generate_response gemini s).original_message = s.original_message ∧
      (generate_response gemini s).driver_id = s.driver_id) ∧
    (∀ (logOk : Bool) (s : AvailabilityState),
      (log_interaction logOk s).original_message = s.original_message ∧
      (log_interaction logOk s).driver_id = s.driver_id) := by
  refine ⟨fun _ _ _ => ⟨rfl, rfl⟩, fun _ => ⟨rfl, rfl⟩, fun _ _ => ⟨rfl, rfl⟩,
    ?_, ?_, fun _ _ => rfl, ?_, ?_, ?_, ?_, ?_, fun _ _ => ⟨rfl, rfl⟩⟩
  · intro s
    unfold generate_expense_response
    constructor <;> (split <;> rfl)
  · intro s
    unfold parse_load_query
    dsimp only
    split
    · split
      · split <;> split <;> rfl
      · split <;> split <;> rfl
    · split
      · split <;> rfl
      · split <;> rfl
  · intro s s' h
    unfold rank_and_filter_loads at h
    cases hr : rankAll s.available_loads with
    | none => rw [hr] at h; exact Option.noConfusion h
    | some ranked =>
      rw [hr] at h
      injection h with h2
      rw [← h2]
  · intro s
    unfold generate_load_response
    split <;> rfl
  · intro driverOk gemini s
    unfold analyze_availability
    constructor <;> (split <;> first | rfl | (split <;> rfl))
  · intro saveOk now s
    unfold update_driver_database
    constructor <;> (split <;> first | rfl | (split <;> rfl))
  · intro gemini s
    unfold generate_response
    constructor <;> (split <;> first | rfl | (split <;> rfl))

unseal Rat.add Rat.mul Rat.inv Rat.sub in
/-- C9 witness: the ranking stage at a concrete state (hypothesis
discharged by evaluation) preserves the query. -/
theorem pipeline_stage_frame_witness :
    lfTinyRanked.query = (lfWith [tinyNormalLoad, tinyUrgentLoad]).query :=
  pipeline_stage_frame.2.2.2.2.2.2.1
    (lfWith [tinyNormalLoad, tinyUrgentLoad]) lfTinyRanked (by decide)

end Logistics

namespace Logistics

open AgentRouter ExpenseTracker

/-- C10: on a message classified expense_tracking, the router does not run
the expense pipeline's ordered-pattern extractor: the envelope's amount is
the integer value of the first contiguous digit run (so "₹1,500" gives 1,
while the pipeline extractor gives the 0.0 sentinel there, and a digitless
message gives 0), its expense_type follows the fuel/toll/general substring
rule, its status is "success" unconditionally, and it carries no
validation_status key. -/
theorem router_expense_branch_spec (message driver_id now nowShort : String)
    (avail : AvailOutcome) :
    (classify_message_intent message = "expense_tracking" →
      (route_message_to_agent message driver_id now nowShort avail).lookup "status"
          = some (.vs "success") ∧
      (route_message_to_agent message driver_id now nowShort avail).lookup "amount"
          = some (.vi (firstNumber message)) ∧
      (route_message_to_agent message driver_id now nowShort avail).lookup
          "expense_type" = some (.vs (routerExpenseType message)) ∧
      (route_message_to_agent message driver_id now nowShort avail).lookup
          "validation_status" = none) ∧
    firstNumber "₹1,500" = 1 ∧
    (∀ m : String, m.data.any Char.isDigit = false → firstNumber m = 0) ∧
    extract_amount (lowerStr "₹1,500") = 0 := by
  refine ⟨?_, by decide, ?_, of_decide_eq_true (by with_unfolding_all rfl)⟩
  · intro hc
    unfold route_message_to_agent
    simp [hc, List.lookup]
  · intro m hm
    unfold firstNumber
    suffices h : ∀ l : List Char, l.any Char.isDigit = false →
        l.tails.findSome? (fun t =>
          let d := t.takeWhile Char.isDigit
          if d.isEmpty then none else some (natOfDigits d : Int)) = none by
      rw [h m.data hm]
      rfl
    intro l hl
    induction l with
    | nil => rfl
    | cons c r ih =>
      simp only [List.any_cons, Bool.or_eq_false_iff] at hl
      simp only [List.tails_cons, List.findSome?_cons, List.takeWhile_cons,
        hl.1, ite_false, List.isEmpty_nil, ite_true]
      exact ih hl.2

end Logistics

namespace Logistics

open AgentRouter

/-- C10 witness: a concrete expense-classified message ("fuel 2500"), with
amount 2500 from the first digit run, no validation_status key, and a
digitless message giving amount 0. -/
theorem router_expense_branch_spec_witness :
    (route_message_to_agent "fuel 2500" "d1" "t1" "t2" .importError).lookup
        "amount" = some (.vi 2500) ∧
    (route_message_to_agent "fuel 2500" "d1" "t1" "t2" .importError).lookup
        "validation_status" = none ∧
    firstNumber "hello" = 0 := by
  have h := router_expense_branch_spec "fuel 2500" "d1" "t1" "t2" .importError
  exact ⟨(h.1 (by decide)).2.1, (h.1 (by decide)).2.2.2,
    h.2.2.1 "hello" (by decide)⟩

end Logistics
